import Mathlib

/-!
Verification development for the llm-builds-linux benchmark harness.

Shallow embedding of:
- `src/linux/benchmark/src/task.py` (Task / VerificationStep data model,
  `to_dict` / `from_dict` serialization),
- `src/linux/benchmark/src/runner.py` (TaskRunner verification engine and
  `evaluate_task` aggregation),
- `src/linux/benchmark/artifacts/src/benchmark_runner.py` (agent trace
  collector: tool-call hooks, message serialization, `run_task`).

Python machine-level details are embedded as follows: Python `int` is `Int`
(or `Nat` for values that are sizes/counts by construction), Python `float`
is `ℚ` (exact rational arithmetic in place of IEEE doubles; no claim below
depends on float rounding), fallible Python code is `Except String`
(the `String` is the exception's `str(e)` message), and the process/file
system boundary (subprocess, stat, Docker) is an explicit `Env` record of
probe functions, so every definition is executable on concrete inputs.
-/

namespace Benchmark

/-! ## Python string helpers -/

/-- `startsWithChars needle hay`: `hay` begins with `needle` (character lists). -/
def startsWithChars : List Char → List Char → Bool
  | [], _ => true
  | _ :: _, [] => false
  | n :: ns, h :: hs => n == h && startsWithChars ns hs

/-- `hasSubChars needle hay`: `needle` occurs contiguously inside `hay`.
This is Python's `needle in hay` on strings, viewed on character lists. -/
def hasSubChars (needle : List Char) : List Char → Bool
  | [] => startsWithChars needle []
  | h :: rest => startsWithChars needle (h :: rest) || hasSubChars needle rest

/-- Python `needle in haystack` (substring containment). -/
def containsStr (haystack needle : String) : Bool :=
  hasSubChars needle.toList haystack.toList

/-- Python `s.lower()` (ASCII lowering suffices for the source's uses). -/
def pyLower (s : String) : String := String.mk (s.toList.map Char.toLower)

/-- Python slicing `s[:n]` on a string: the first `n` characters. -/
def pyTakeStr (n : Nat) (s : String) : String := String.mk (s.toList.take n)

/-- Python `s.strip()`: drop leading and trailing whitespace. -/
def pyStrip (s : String) : String :=
  String.mk ((s.toList.dropWhile Char.isWhitespace).reverse.dropWhile Char.isWhitespace).reverse

/-- Python `s.split()` with no argument: split on whitespace runs, no empties. -/
def pySplitWs (s : String) : List String :=
  (s.split Char.isWhitespace).filter (fun t => t ≠ "")

/-- Python `int(s)` on a stripped decimal string: optional sign then digits;
anything else raises `ValueError` (modelled as the error message). -/
def pyParseInt (s : String) : Except String Int :=
  let core (ds : List Char) : Except String Nat :=
    if ds ≠ [] ∧ ds.all Char.isDigit then
      .ok (ds.foldl (fun acc c => acc * 10 + (c.toNat - '0'.toNat)) 0)
    else
      .error ("invalid literal for int() with base 10: '" ++ s ++ "'")
  match s.toList with
  | '-' :: ds => (core ds).map (fun n => -(n : Int))
  | '+' :: ds => (core ds).map (fun n => (n : Int))
  | ds => (core ds).map (fun n => (n : Int))

/-- Python `int(x)` on a float: truncation toward zero (here on `ℚ`). -/
def pyTruncRat (q : ℚ) : Int := Int.tdiv q.num q.den

/-- Python `round(x, 2)` modelled on `ℚ`: round to 2 decimal places.
(Python rounds ties to even on binary floats; ties are irrelevant to every
claim below, so half-up rounding is used.) -/
def pyRound2 (q : ℚ) : ℚ :=
  let t : ℚ := q * 100
  ((Int.fdiv (2 * t.num + t.den) (2 * t.den) : Int) : ℚ) / 100

/-- `"%.1f"`-style rendering of a (nonnegative) rational with one decimal. -/
def fmt1 (q : ℚ) : String :=
  let t : ℚ := q * 10
  let n : Int := Int.fdiv (2 * t.num + t.den) (2 * t.den)
  toString (Int.ediv n 10) ++ "." ++ toString (Int.emod n 10).natAbs

/-- Python `repr` of a list of strings, as `"%s" % list` prints it:
`['a', 'b']` (inner quoting/escaping of exotic characters is not modelled). -/
def pyStrListRepr (l : List String) : String :=
  "[" ++ String.intercalate ", " (l.map (fun s => "'" ++ s ++ "'")) ++ "]"

/-- Truthiness of a Python `Optional[int]`: `None` and `0` are falsy. -/
def truthyOptInt : Option Int → Bool
  | none => false
  | some n => n != 0

/-- Truthiness of a Python `Optional[str]`: `None` and `""` are falsy. -/
def truthyOptStr : Option String → Bool
  | none => false
  | some s => s != ""

/-! ## Data model (`src/linux/benchmark/src/task.py`) -/

/-- `Difficulty` enum. -/
inductive Difficulty
  | easy | medium | hard | extreme
deriving DecidableEq

def Difficulty.value : Difficulty → String
  | .easy => "easy"
  | .medium => "medium"
  | .hard => "hard"
  | .extreme => "extreme"

/-- `Difficulty(s)`: enum lookup by value; `none` models `ValueError`. -/
def Difficulty.ofValue : String → Option Difficulty
  | "easy" => some .easy
  | "medium" => some .medium
  | "hard" => some .hard
  | "extreme" => some .extreme
  | _ => none

/-- `Category` enum. -/
inductive Category
  | from_scratch | tool_assisted | modification | debugging | configuration
deriving DecidableEq

def Category.value : Category → String
  | .from_scratch => "from_scratch"
  | .tool_assisted => "tool_assisted"
  | .modification => "modification"
  | .debugging => "debugging"
  | .configuration => "configuration"

/-- `Category(s)`: enum lookup by value; `none` models `ValueError`. -/
def Category.ofValue : String → Option Category
  | "from_scratch" => some .from_scratch
  | "tool_assisted" => some .tool_assisted
  | "modification" => some .modification
  | "debugging" => some .debugging
  | "configuration" => some .configuration
  | _ => none

/-- `VerificationType` enum. -/
inductive VerificationType
  | boot_test | file_check | checksum | command_output | size_check
deriving DecidableEq

def VerificationType.value : VerificationType → String
  | .boot_test => "boot_test"
  | .file_check => "file_check"
  | .checksum => "checksum"
  | .command_output => "command_output"
  | .size_check => "size_check"

/-- `VerificationType(s)`: enum lookup by value; `none` models `ValueError`. -/
def VerificationType.ofValue : String → Option VerificationType
  | "boot_test" => some .boot_test
  | "file_check" => some .file_check
  | "checksum" => some .checksum
  | "command_output" => some .command_output
  | "size_check" => some .size_check
  | _ => none

/-- `VerificationStep` dataclass. -/
structure VerificationStep where
  type : VerificationType
  description : String
  command : Option String := none
  expected_output : Option String := none
  expected_files : List String := []
  max_size_mb : Option Int := none
  min_size_mb : Option Int := none
  timeout_seconds : Int := 300
deriving DecidableEq

/-- `Task` dataclass. -/
structure Task where
  id : String
  name : String
  description : String
  category : Category
  difficulty : Difficulty
  instructions : String
  expected_steps : Int
  prerequisites : List String := []
  base_image : String := "ubuntu:22.04"
  required_packages : List String := []
  required_disk_gb : Int := 20
  required_ram_gb : Int := 4
  verification_steps : List VerificationStep := []
  success_artifacts : List String := []
  time_limit_minutes : Int := 120
  expected_build_minutes : Int := 30
  tags : List String := []
  reference_docs : List String := []
  common_failure_points : List String := []
deriving DecidableEq

/-- The dictionary produced for one verification step inside `Task.to_dict`
(the JSON object, typed by its fixed key set). -/
structure StepDict where
  type : String
  description : String
  command : Option String
  expected_output : Option String
  expected_files : List String
  max_size_mb : Option Int
  min_size_mb : Option Int
  timeout_seconds : Int
deriving DecidableEq

/-- The dictionary produced by `Task.to_dict` (the JSON object, typed by its
fixed key set; `.get(key, default)` reads in `from_dict` only matter for keys
absent from a dict, which `to_dict` never produces). -/
structure TaskDict where
  id : String
  name : String
  description : String
  category : String
  difficulty : String
  instructions : String
  expected_steps : Int
  prerequisites : List String
  base_image : String
  required_packages : List String
  required_disk_gb : Int
  required_ram_gb : Int
  verification_steps : List StepDict
  success_artifacts : List String
  time_limit_minutes : Int
  expected_build_minutes : Int
  tags : List String
  reference_docs : List String
  common_failure_points : List String
deriving DecidableEq

/-- `Task.to_dict` (task.py lines 90-124), with the inline per-step dict
comprehension. -/
def Task.to_dict (t : Task) : TaskDict :=
  { id := t.id
    name := t.name
    description := t.description
    category := t.category.value
    difficulty := t.difficulty.value
    instructions := t.instructions
    expected_steps := t.expected_steps
    prerequisites := t.prerequisites
    base_image := t.base_image
    required_packages := t.required_packages
    required_disk_gb := t.required_disk_gb
    required_ram_gb := t.required_ram_gb
    verification_steps := t.verification_steps.map (fun v =>
      { type := v.type.value
        description := v.description
        command := v.command
        expected_output := v.expected_output
        expected_files := v.expected_files
        max_size_mb := v.max_size_mb
        min_size_mb := v.min_size_mb
        timeout_seconds := v.timeout_seconds })
    success_artifacts := t.success_artifacts
    time_limit_minutes := t.time_limit_minutes
    expected_build_minutes := t.expected_build_minutes
    tags := t.tags
    reference_docs := t.reference_docs
    common_failure_points := t.common_failure_points }

/-- `Task.from_dict` (task.py lines 130-167). `none` models the `ValueError`
raised by an enum lookup on an unknown value. -/
def Task.from_dict (data : TaskDict) : Option Task := do
  let verification_steps ← data.verification_steps.mapM (fun v => do
    let ty ← VerificationType.ofValue v.type
    pure { type := ty
           description := v.description
           command := v.command
           expected_output := v.expected_output
           expected_files := v.expected_files
           max_size_mb := v.max_size_mb
           min_size_mb := v.min_size_mb
           timeout_seconds := v.timeout_seconds : VerificationStep })
  let category ← Category.ofValue data.category
  let difficulty ← Difficulty.ofValue data.difficulty
  pure { id := data.id
         name := data.name
         description := data.description
         category := category
         difficulty := difficulty
         instructions := data.instructions
         expected_steps := data.expected_steps
         prerequisites := data.prerequisites
         base_image := data.base_image
         required_packages := data.required_packages
         required_disk_gb := data.required_disk_gb
         required_ram_gb := data.required_ram_gb
         verification_steps := verification_steps
         success_artifacts := data.success_artifacts
         time_limit_minutes := data.time_limit_minutes
         expected_build_minutes := data.expected_build_minutes
         tags := data.tags
         reference_docs := data.reference_docs
         common_failure_points := data.common_failure_points }

/-! ## Runner (`src/linux/benchmark/src/runner.py`) -/

/-- `RunnerConfig` dataclass (the two `Path` fields are filesystem locations
consumed only by I/O that no claim touches, so they are not modelled). -/
structure RunnerConfig where
  docker_enabled : Bool := true
  qemu_enabled : Bool := true
  timeout_multiplier : ℚ := 1
  verbose : Bool := true
  save_logs : Bool := true
deriving DecidableEq

/-- Outcome of one `subprocess.run` call with a timeout: the process
completed (captured stdout/stderr and exit status), the timeout expired
(`subprocess.TimeoutExpired` is raised), or some other exception was
raised (its `str` message). -/
inductive CmdOutcome
  | completed (stdout stderr : String) (returncode : Int)
  | timedOut
  | raised (msg : String)
deriving DecidableEq

/-- The external world the runner probes: local filesystem calls and the
Docker/subprocess boundary, one function per distinct call site shape.
`Except String` results model calls that can raise (message = `str(e)`). -/
structure Env where
  /-- `Path(p).exists()` -/
  fileExists : String → Bool
  /-- `Path(p).stat().st_size` (raises e.g. `FileNotFoundError`) -/
  statSize : String → Except String Nat
  /-- `subprocess.run(cmd, shell=True, capture_output=True, text=True, timeout=t)`
  (a `None` command raises inside `subprocess`) -/
  runShell : Option String → Int → CmdOutcome
  /-- `subprocess.run(["docker","exec",cid,"test","-f",p])` → returncode -/
  dockerTest : String → String → Int
  /-- `subprocess.run(["docker","exec",cid,"stat","-c","%s",p])` → (returncode, stdout) -/
  dockerStat : String → String → Except String (Int × String)
  /-- `subprocess.run(["docker","exec",cid,"bash","-c",cmd], timeout=t)` -/
  dockerRun : String → Option String → Int → CmdOutcome
  /-- `subprocess.run(["sha256sum", p])` → (returncode, stdout) -/
  sha256Local : String → Except String (Int × String)
  /-- `subprocess.run(["docker","exec",cid,"sha256sum",p])` → (returncode, stdout) -/
  sha256Docker : String → String → Except String (Int × String)

/-- The result dict initialized at the top of `run_verification`
(runner.py lines 108-115) and mutated by the `_verify_*` helpers. -/
structure ResultDict where
  type : String
  description : String
  passed : Bool
  details : String
  error : Option String
  duration_seconds : ℚ
deriving DecidableEq

/-- The fresh result dict for a step (runner.py lines 108-115). -/
def init_result (step : VerificationStep) : ResultDict :=
  { type := step.type.value
    description := step.description
    passed := false
    details := ""
    error := none
    duration_seconds := 0 }

/-- `"%s" % cmd` for the command as Python prints it inside
`str(TimeoutExpired)`: the string itself, or `None`. -/
def pyShowOptCmd : Option String → String
  | none => "None"
  | some s => s

/-- `str(subprocess.TimeoutExpired(cmd, timeout))`:
`"Command '%s' timed out after %s seconds"`. -/
def timeoutExpiredStr (cmd : String) (timeout : Int) : String :=
  "Command '" ++ cmd ++ "' timed out after " ++ toString timeout ++ " seconds"

/-- `"%s" % ["docker","exec",cid,"bash","-c",cmd]` (list repr) for the Docker
branch's `TimeoutExpired` message. -/
def dockerCmdRepr (container_id : String) (cmd : Option String) : String :=
  "['docker', 'exec', '" ++ container_id ++ "', 'bash', '-c', " ++
    (match cmd with
     | none => "None"
     | some s => "'" ++ s ++ "'") ++ "]"

/-- `TaskRunner._verify_files` (runner.py lines 142-167). Never raises. -/
def verify_files (env : Env) (step : VerificationStep) (container_id : String)
    (result : ResultDict) : Except String ResultDict :=
  let missing_files := step.expected_files.filter (fun file_path =>
    let exists_ :=
      if container_id = "local" then env.fileExists file_path
      else env.dockerTest container_id file_path == 0
    ¬ exists_)
  .ok { result with
        passed := missing_files.length = 0
        details :=
          if missing_files ≠ [] then "Missing files: " ++ pyStrListRepr missing_files
          else "All " ++ toString step.expected_files.length ++ " files found" }

/-- The size acquisition for one file inside `_verify_size`'s loop
(runner.py lines 174-187): `Path.stat().st_size` locally (raising on a
missing file), or `docker exec stat -c %s` (a returncode ≠ 0 is the
`"File not found"` early return, modelled as the `.ok none` outcome),
then `size_mb = size_bytes / (1024 * 1024)`. -/
def size_mb_probe (env : Env) (container_id : String) (file_path : String) :
    Except String (Option ℚ) :=
  if container_id = "local" then
    (env.statSize file_path).map (fun size_bytes => some ((size_bytes : ℚ) / (1024 * 1024)))
  else
    match env.dockerStat container_id file_path with
    | .error e => .error e
    | .ok (rc, out) =>
      if rc ≠ 0 then .ok none
      else (pyParseInt (pyStrip out)).map (fun size_bytes => some ((size_bytes : ℚ) / (1024 * 1024)))

/-- The `for file_path in step.expected_files` loop of
`TaskRunner._verify_size` (runner.py lines 173-199): early return on the
first missing or bound-violating file (note `if step.min_size_mb and ...`:
a `None` or `0` bound is falsy, so its comparison is skipped). -/
def verify_size_loop (env : Env) (step : VerificationStep) (container_id : String)
    (result : ResultDict) : List String → Except String ResultDict
  | [] => .ok { result with passed := true, details := "Size constraints satisfied" }
  | file_path :: rest =>
    match size_mb_probe env container_id file_path with
    | .error e => .error e
    | .ok none => .ok { result with details := "File not found: " ++ file_path }
    | .ok (some size_mb) =>
      if truthyOptInt step.min_size_mb = true ∧ size_mb < ((step.min_size_mb.getD 0 : Int) : ℚ) then
        .ok { result with details := (file_path ++ ": " ++ fmt1 size_mb ++ "MB < min " ++
          toString (step.min_size_mb.getD 0) ++ "MB") }
      else if truthyOptInt step.max_size_mb = true ∧ ((step.max_size_mb.getD 0 : Int) : ℚ) < size_mb then
        .ok { result with details := (file_path ++ ": " ++ fmt1 size_mb ++ "MB > max " ++
          toString (step.max_size_mb.getD 0) ++ "MB") }
      else
        verify_size_loop env step container_id result rest

/-- `TaskRunner._verify_size` (runner.py lines 169-199). -/
def verify_size (env : Env) (step : VerificationStep) (container_id : String)
    (result : ResultDict) : Except String ResultDict :=
  verify_size_loop env step container_id result step.expected_files

/-- `TaskRunner._verify_command` (runner.py lines 201-232). A timeout raises
`subprocess.TimeoutExpired` out of this helper (there is no local handler). -/
def verify_command (env : Env) (config : RunnerConfig) (step : VerificationStep)
    (container_id : String) (result : ResultDict) : Except String ResultDict :=
  let timeout : Int := pyTruncRat ((step.timeout_seconds : ℚ) * config.timeout_multiplier)
  let cmd_result : CmdOutcome :=
    if container_id = "local" then env.runShell step.command timeout
    else env.dockerRun container_id step.command timeout
  match cmd_result with
  | .timedOut =>
    .error (timeoutExpiredStr
      (if container_id = "local" then pyShowOptCmd step.command
       else dockerCmdRepr container_id step.command) timeout)
  | .raised e => .error e
  | .completed stdout stderr returncode =>
    let output := stdout ++ stderr
    if truthyOptStr step.expected_output = true then
      let passed := containsStr output (step.expected_output.getD "")
      .ok { result with
            passed := passed
            details := "Output " ++ (if passed then "contains" else "missing") ++
              " expected string" }
    else
      .ok { result with
            passed := returncode == 0
            details := "Command returned " ++ toString returncode }

/-- `TaskRunner._verify_boot` (runner.py lines 234-277). Its local
`try/except subprocess.TimeoutExpired` turns a timeout into a failed
outcome; any other exception still propagates. -/
def verify_boot (env : Env) (config : RunnerConfig) (step : VerificationStep)
    (container_id : String) (result : ResultDict) : Except String ResultDict :=
  if config.qemu_enabled = false then
    .ok { result with details := "QEMU verification disabled", passed := true }
  else
    let timeout : Int := pyTruncRat ((step.timeout_seconds : ℚ) * config.timeout_multiplier)
    let qemu_result : CmdOutcome :=
      if container_id = "local" then env.runShell step.command timeout
      else env.dockerRun container_id step.command timeout
    match qemu_result with
    | .timedOut =>
      .ok { result with
            passed := false
            details := ("Boot timed out after " ++ toString timeout ++ "s") }
    | .raised e => .error e
    | .completed stdout stderr _ =>
      let output := stdout ++ stderr
      if truthyOptStr step.expected_output = true ∧
          containsStr output (step.expected_output.getD "") = true then
        .ok { result with
              passed := true
              details := ("Boot successful: found '" ++ step.expected_output.getD "" ++ "'") }
      else
        .ok { result with
              passed := false
              details := "Boot indicator not found in output" }

/-- The `for file_path in step.expected_files` loop of
`TaskRunner._verify_checksum` (runner.py lines 283-305):
`actual_hash = hash_result.stdout.split()[0]` raises `IndexError` on empty
output; the mismatch comparison is guarded by `if step.expected_output and ...`. -/
def verify_checksum_loop (env : Env) (step : VerificationStep) (container_id : String)
    (result : ResultDict) : List String → Except String ResultDict
  | [] => .ok { result with passed := true, details := "Checksum verified" }
  | file_path :: rest =>
    match (if container_id = "local" then env.sha256Local file_path
           else env.sha256Docker container_id file_path) with
    | .error e => .error e
    | .ok (returncode, stdout) =>
      if returncode ≠ 0 then
        .ok { result with details := "Failed to hash " ++ file_path }
      else
        match pySplitWs stdout with
        | [] => .error "list index out of range"
        | actual_hash :: _ =>
          if truthyOptStr step.expected_output = true ∧
              actual_hash ≠ step.expected_output.getD "" then
            .ok { result with details := ("Checksum mismatch: " ++
              pyTakeStr 16 actual_hash ++ "... != " ++
              pyTakeStr 16 (step.expected_output.getD "") ++ "...") }
          else
            verify_checksum_loop env step container_id result rest

/-- `TaskRunner._verify_checksum` (runner.py lines 279-309). -/
def verify_checksum (env : Env) (step : VerificationStep) (container_id : String)
    (result : ResultDict) : Except String ResultDict :=
  verify_checksum_loop env step container_id result step.expected_files

/-- The `try` block of `TaskRunner.run_verification` (runner.py lines
119-133): dispatch on the step's type to the matching `_verify_*` helper.
An `.error` is an exception escaping the helper. -/
def run_check (env : Env) (config : RunnerConfig) (step : VerificationStep)
    (container_id : String) (result : ResultDict) : Except String ResultDict :=
  match step.type with
  | .file_check => verify_files env step container_id result
  | .size_check => verify_size env step container_id result
  | .command_output => verify_command env config step container_id result
  | .boot_test => verify_boot env config step container_id result
  | .checksum => verify_checksum env step container_id result

/-- `TaskRunner.run_verification` (runner.py lines 101-140): build the fresh
result dict, run the dispatched check, catch any exception into
`error := str(e)`, `passed := false`, and stamp the wall-clock duration
(passed in here as `elapsed`, since real time is outside the model). -/
def run_verification (env : Env) (config : RunnerConfig) (step : VerificationStep)
    (container_id : String) (elapsed : ℚ) : ResultDict :=
  let result := init_result step
  let result :=
    match run_check env config step container_id result with
    | .ok r => r
    | .error e => { result with error := some e, passed := false }
  { result with duration_seconds := elapsed }

/-- `TaskResult` dataclass (task.py lines 170-199). -/
structure TaskResult where
  task_id : String
  agent_id : String
  model_name : String
  success : Bool
  steps_completed : Nat
  total_steps_attempted : Nat
  start_time : String
  end_time : String
  duration_seconds : ℚ
  verification_results : List ResultDict := []
  artifacts_produced : List String := []
  logs_path : Option String := none
  errors : List String := []
  failure_point : Option String := none
  partial_score : ℚ := 0
deriving DecidableEq

/-- `TaskRunner.evaluate_task` (runner.py lines 316-372): run every
verification step against the `"local"` handle, in order; `success` starts
`True` and is cleared by any non-passing step; errors are collected from
non-passing steps with a truthy `error`; `partial_score` is
passed-count / total-count (`0.0` when there are no steps); artifacts are
the declared success artifacts that exist.  Timestamps and wall-clock
readings are passed in (`start_time`/`end_time`/`duration`, and
`step_elapsed i` for the i-th step's own duration). -/
def evaluate_task (env : Env) (config : RunnerConfig) (task : Task)
    (agent_id model_name : String) (start_time end_time : String)
    (duration : ℚ) (step_elapsed : Nat → ℚ) : TaskResult :=
  let verification_results :=
    task.verification_steps.enum.map
      (fun p => run_verification env config p.2 "local" (step_elapsed p.1))
  let success :=
    verification_results.foldl (fun s r => if ¬ r.passed then false else s) true
  let errors :=
    verification_results.foldl
      (fun es r =>
        if ¬ r.passed then
          if truthyOptStr r.error then es ++ [r.error.getD ""] else es
        else es)
      []
  let passed_count := verification_results.countP (fun v => v.passed)
  let total_count := verification_results.length
  let partial_score : ℚ :=
    if total_count > 0 then (passed_count : ℚ) / (total_count : ℚ) else 0
  let artifacts_produced := task.success_artifacts.filter env.fileExists
  { task_id := task.id
    agent_id := agent_id
    model_name := model_name
    success := success
    steps_completed := passed_count
    total_steps_attempted := total_count
    start_time := start_time
    end_time := end_time
    duration_seconds := duration
    verification_results := verification_results
    artifacts_produced := artifacts_produced
    errors := errors
    partial_score := partial_score }

/-! ## Trace collector (`src/linux/benchmark/artifacts/src/benchmark_runner.py`) -/

/-- `ToolCall` dataclass. `tool_input` is an opaque key/value mapping;
`tool_output` holds the (truncated) stringified tool response. -/
structure ToolCall where
  tool_name : String
  tool_input : List (String × String)
  tool_output : Option String := none
  duration_seconds : ℚ := 0
  timestamp : String := ""
  success : Bool := true
  error : Option String := none
deriving DecidableEq

/-- One entry of `AgentTrace.errors`: the dict appended on an exception
during `run_task` (type name, message, ISO timestamp). -/
structure TraceError where
  type : String
  message : String
  timestamp : String
deriving DecidableEq

/-- One content block of a serialized assistant message
(`_serialize_message`, benchmark_runner.py lines 256-273):
`{"type": "text", "text": ...}` or `{"type": "tool_use", "name": ..., "input": ...}`. -/
inductive SBlock
  | text (text : String)
  | tool_use (name : String) (input : List (String × String))
deriving DecidableEq

/-- A serialized message, exactly the image of `_serialize_message`:
`{"role": "assistant", "content": [blocks]}`, `{"role": "user", "content": str}`,
or `{"role": "unknown", "content": str}`. -/
inductive SMsg
  | assistant (content : List SBlock)
  | user (content : String)
  | unknown (content : String)
deriving DecidableEq

/-- `AgentTrace` dataclass (benchmark_runner.py lines 41-70). -/
structure AgentTrace where
  trace_id : String
  task_id : String
  task_prompt : String
  model : String
  timestamp : String
  success : Bool := false
  total_duration_seconds : ℚ := 0
  total_tool_calls : Nat := 0
  total_tokens_in : Nat := 0
  total_tokens_out : Nat := 0
  tool_calls : List ToolCall := []
  messages : List SMsg := []
  errors : List TraceError := []
  final_output : String := ""
  artifacts_produced : List String := []
deriving DecidableEq

/-- The success heuristic of `_post_tool_hook` (benchmark_runner.py line 121):
`"error" not in str(tool_output).lower()`. -/
def classify_tool_success (tool_output_str : String) : Bool :=
  ¬ containsStr (pyLower tool_output_str) "error"

/-- `BenchmarkRunner._post_tool_hook` (benchmark_runner.py lines 105-126),
restricted to the recording branch (`self._current_trace` is the active
trace): build the `ToolCall` — output truncated to 5000 characters, success
classified by the "error" heuristic — append it and bump the running count.
`tool_output_str` is `str(tool_response)`; `duration` and `now_iso` stand in
for the wall-clock reads. -/
def post_tool_hook (trace : AgentTrace) (tool_name : String)
    (tool_input : List (String × String)) (tool_output_str : String)
    (duration : ℚ) (now_iso : String) : AgentTrace :=
  let call : ToolCall :=
    { tool_name := tool_name
      tool_input := tool_input
      tool_output := some (pyTakeStr 5000 tool_output_str)
      duration_seconds := pyRound2 duration
      timestamp := now_iso
      success := classify_tool_success tool_output_str }
  { trace with
    tool_calls := trace.tool_calls ++ [call]
    total_tool_calls := trace.total_tool_calls + 1 }

/-- The inner `for block in msg.get("content", [])` scan of
`_extract_final_output`: the first `{"type": "text"}` block's text. -/
def first_text_block : List SBlock → Option String
  | [] => none
  | .text t :: _ => some t
  | .tool_use _ _ :: rest => first_text_block rest

/-- The `for msg in reversed(messages)` loop body of `_extract_final_output`
(benchmark_runner.py lines 275-282), already running over the reversed list:
on an assistant message, return its first text block's text truncated to
2000 characters if it has one, else keep scanning. -/
def extract_final_output_loop : List SMsg → String
  | [] => ""
  | .assistant content :: rest =>
    match first_text_block content with
    | some t => pyTakeStr 2000 t
    | none => extract_final_output_loop rest
  | .user _ :: rest => extract_final_output_loop rest
  | .unknown _ :: rest => extract_final_output_loop rest

/-- `BenchmarkRunner._extract_final_output` (benchmark_runner.py lines 275-282). -/
def extract_final_output (messages : List SMsg) : String :=
  extract_final_output_loop messages.reverse

/-- The most-recent assistant text block of the message sequence, as the
spec's words describe `finalOutput` ("most-recent assistant text block
wins"): the last `{"type": "text"}` entry across all assistant messages in
order.  Written from the spec, for comparison with `extract_final_output`. -/
def most_recent_assistant_text_block (messages : List SMsg) : Option String :=
  ((messages.map (fun m =>
      match m with
      | .assistant content =>
        content.filterMap (fun b =>
          match b with
          | .text t => some t
          | .tool_use _ _ => none)
      | _ => [])).flatten).getLast?

/-- What one run of `BenchmarkRunner.run_task` (benchmark_runner.py lines
142-239) does, with the world passed in: `stamp` is
`datetime.now().strftime('%Y%m%d-%H%M%S')`, `now_iso`/`err_iso` the ISO
timestamps read at trace allocation and in the `except` handler, `t0`/`t1`
the wall-clock reads around the body, and `body` the outcome of the agent
query loop — either the serialized message list, or the raised exception's
type name and message; `recorded` are the tool calls the post-hook appended
while the body ran.  Returns the final trace and the list of file writes
performed (path, serialized trace) — the code serializes with
`trace.to_json()`; the write is modelled as carrying the trace value. -/
inductive RunBody
  | ok (messages : List SMsg) (recorded : List ToolCall)
  | raised (exc_type exc_msg : String) (recorded : List ToolCall)
deriving DecidableEq

def run_task (model trace_dir : String) (task_id prompt : String)
    (stamp now_iso err_iso : String) (t0 t1 : ℚ) (body : RunBody) :
    AgentTrace × List (String × AgentTrace) :=
  let trace_id := task_id ++ "-" ++ stamp
  let trace0 : AgentTrace :=
    { trace_id := trace_id
      task_id := task_id
      task_prompt := prompt
      model := model
      timestamp := now_iso }
  let trace1 : AgentTrace :=
    match body with
    | .ok messages recorded =>
      { trace0 with
        tool_calls := recorded
        total_tool_calls := recorded.length
        messages := messages
        success := true
        final_output := extract_final_output messages }
    | .raised exc_type exc_msg recorded =>
      { trace0 with
        tool_calls := recorded
        total_tool_calls := recorded.length
        success := false
        errors := [{ type := exc_type, message := exc_msg, timestamp := err_iso }] }
  let trace2 := { trace1 with total_duration_seconds := pyRound2 (t1 - t0) }
  let trace_path := trace_dir ++ "/" ++ trace_id ++ ".json"
  (trace2, [(trace_path, trace2)])

/-! ## Concrete fixtures for closed evaluations -/

/-- A concrete environment: no files exist, local `stat` raises, commands
complete silently with exit status 0, Docker probes fail. -/
def env0 : Env :=
  { fileExists := fun _ => false
    statSize := fun _ => .error "stat: missing"
    runShell := fun _ _ => .completed "" "" 0
    dockerTest := fun _ _ => 1
    dockerStat := fun _ _ => .ok (1, "")
    dockerRun := fun _ _ _ => .completed "" "" 0
    sha256Local := fun _ => .ok (1, "")
    sha256Docker := fun _ _ => .ok (1, "") }

/-- The default `RunnerConfig()`. -/
def cfg0 : RunnerConfig := {}

/-- A task whose `verification_steps` list is empty. -/
def task_no_steps : Task :=
  { id := "t-empty"
    name := "empty"
    description := "a task with no verification steps"
    category := .debugging
    difficulty := .easy
    instructions := "do nothing"
    expected_steps := 1 }

/-! ## C1 -/

/-- C1: the claim says `evaluate_task` returns `success = false` for a task
with an empty `verification_steps` list.  The code does the opposite: the
`success` flag is initialized `True` (runner.py line 333) and the loop over
the steps (line 335) never executes, so for every environment,
configuration and task with no steps the result has `success = true`
(while `partial_score` is `0.0` as claimed).  This theorem evaluates the
code's behavior at that failing class of inputs. -/
theorem evaluate_task_no_steps_returns_success_true
    (env : Env) (config : RunnerConfig) (task : Task)
    (agent_id model_name start_time end_time : String) (dur : ℚ) (se : Nat → ℚ)
    (h : task.verification_steps = []) :
    (evaluate_task env config task agent_id model_name start_time end_time dur se).success
        = true ∧
    (evaluate_task env config task agent_id model_name start_time end_time dur se).partial_score
        = 0 := by
  simp [evaluate_task, h]

/-- Witness: the behavior above at a concrete empty-steps task. -/
theorem evaluate_task_no_steps_returns_success_true_witness :
    (evaluate_task env0 cfg0 task_no_steps "agent" "model" "s" "e" 0 (fun _ => 0)).success
        = true ∧
    (evaluate_task env0 cfg0 task_no_steps "agent" "model" "s" "e" 0 (fun _ => 0)).partial_score
        = 0 :=
  evaluate_task_no_steps_returns_success_true env0 cfg0 task_no_steps
    "agent" "model" "s" "e" 0 (fun _ => 0) rfl

/-! ## C5 -/

/-- C5: `evaluate_task` returns `partial_score` equal to the number of
passing outcomes divided by the total number of outcomes (0 when the total
is 0), so for k of n passing steps the score is exactly k/n, and the score
always lies in [0, 1].  (`steps_completed` is that same k.) -/
theorem evaluate_task_partial_score_is_fraction
    (env : Env) (config : RunnerConfig) (task : Task)
    (agent_id model_name start_time end_time : String) (dur : ℚ) (se : Nat → ℚ) :
    let res := evaluate_task env config task agent_id model_name start_time end_time dur se
    res.partial_score =
      (if res.verification_results.length > 0 then
        ((res.verification_results.countP (fun v => v.passed) : ℚ) /
          (res.verification_results.length : ℚ))
      else 0) ∧
    res.steps_completed = res.verification_results.countP (fun v => v.passed) ∧
    0 ≤ res.partial_score ∧ res.partial_score ≤ 1 := by
  intro res
  have hk : res.verification_results.countP (fun v => v.passed) ≤
      res.verification_results.length := List.countP_le_length _
  have hscore : res.partial_score =
      (if res.verification_results.length > 0 then
        ((res.verification_results.countP (fun v => v.passed) : ℚ) /
          (res.verification_results.length : ℚ))
      else 0) := rfl
  refine ⟨hscore, rfl, ?_, ?_⟩
  · rw [hscore]
    split
    · positivity
    · exact le_refl 0
  · rw [hscore]
    split
    · rename_i hn
      rw [div_le_one (by exact_mod_cast hn)]
      exact_mod_cast hk
    · exact zero_le_one

/-! ## C6 -/

/-- C6: a run whose body raises still produces exactly one trace file,
named by the trace id, whose trace has `success = false` and a non-empty
`errors` list holding the exception's type, message and timestamp. -/
theorem run_task_raised_persists_failed_trace
    (model trace_dir task_id prompt stamp now_iso err_iso : String) (t0 t1 : ℚ)
    (exc_type exc_msg : String) (recorded : List ToolCall) :
    let out := run_task model trace_dir task_id prompt stamp now_iso err_iso t0 t1
      (.raised exc_type exc_msg recorded)
    out.2 = [(trace_dir ++ "/" ++ (task_id ++ "-" ++ stamp) ++ ".json", out.1)] ∧
    out.1.trace_id = task_id ++ "-" ++ stamp ∧
    out.1.success = false ∧
    out.1.errors = [{ type := exc_type, message := exc_msg, timestamp := err_iso }] ∧
    out.1.errors ≠ [] := by
  refine ⟨rfl, rfl, rfl, rfl, by simp [run_task]⟩

/-! ## C7 -/

/-- C7: the post-call hook records a `ToolCall` whose `success` is true
exactly when the stringified tool output does not contain the
case-insensitive substring "error", and whose `tool_output` is the
stringified output truncated to at most 5000 characters. -/
theorem post_tool_hook_success_heuristic_and_truncation
    (trace : AgentTrace) (tool_name : String) (tool_input : List (String × String))
    (tool_output_str : String) (duration : ℚ) (now_iso : String) :
    ∃ call : ToolCall,
      (post_tool_hook trace tool_name tool_input tool_output_str duration now_iso).tool_calls
        = trace.tool_calls ++ [call] ∧
      (call.success = true ↔ containsStr (pyLower tool_output_str) "error" = false) ∧
      call.tool_output = some (pyTakeStr 5000 tool_output_str) ∧
      (pyTakeStr 5000 tool_output_str).length ≤ 5000 := by
  refine ⟨_, rfl, ?_, rfl, ?_⟩
  · simp [classify_tool_success]
  · show (tool_output_str.toList.take 5000).length ≤ 5000
    simp

/-! ## C9 -/

/-- Enum round-trip: `VerificationType(x.value) = x`. -/
theorem verificationType_ofValue_value (x : VerificationType) :
    VerificationType.ofValue x.value = some x := by cases x <;> rfl

/-- Enum round-trip: `Category(x.value) = x`. -/
theorem category_ofValue_value (x : Category) :
    Category.ofValue x.value = some x := by cases x <;> rfl

/-- Enum round-trip: `Difficulty(x.value) = x`. -/
theorem difficulty_ofValue_value (x : Difficulty) :
    Difficulty.ofValue x.value = some x := by cases x <;> rfl

/-- The accumulator invariant of `List.mapM.loop` (for `Option`) over a
`map` that `f` inverts pointwise. -/
theorem mapM_loop_map {α β : Type} (g : α → β) (f : β → Option α)
    (h : ∀ a, f (g a) = some a) :
    ∀ (l : List α) (acc : List α),
      List.mapM.loop f (l.map g) acc = some (acc.reverse ++ l) := by
  intro l
  induction l with
  | nil => intro acc; simp [List.mapM.loop]
  | cons a as ih =>
    intro acc
    simp only [List.map_cons, List.mapM.loop, h a, Option.bind_eq_bind,
      Option.some_bind, ih (a :: acc), List.reverse_cons, List.append_assoc,
      List.cons_append, List.nil_append]

/-- `mapM` over a `map` it inverts pointwise is the identity. -/
theorem list_mapM_map_id {α β : Type} (g : α → β) (f : β → Option α)
    (h : ∀ a, f (g a) = some a) : ∀ l : List α, (l.map g).mapM f = some l := by
  intro l
  have := mapM_loop_map g f h l []
  simpa [List.mapM] using this

/-- C9: reconstructing a `Task` from its own dictionary serialization is the
identity — `Task.from_dict (task.to_dict()) = task`, every field included
(in particular every `VerificationStep` with all of its fields). -/
theorem task_to_dict_from_dict_roundtrip (t : Task) :
    Task.from_dict (Task.to_dict t) = some t := by
  obtain ⟨tid, tname, tdesc, tcat, tdiff, tinstr, tes, tpre, tbi, trp, trd, trr,
    tvs, tsa, ttl, teb, ttg, trdoc, tcfp⟩ := t
  simp only [Task.to_dict, Task.from_dict, bind, Option.bind]
  rw [list_mapM_map_id]
  · simp [category_ofValue_value, difficulty_ofValue_value]
  · intro v
    obtain ⟨vt, vd, vc, veo, vef, vmx, vmn, vts⟩ := v
    cases vt <;> rfl

/-! ## C10 -/

/-- The `_verify_size` loop treats `min_size_mb = 0` exactly as
`min_size_mb = None`: the bound guard `if step.min_size_mb and ...` is falsy
for both. -/
theorem verify_size_loop_zero_min (env : Env) (ty : VerificationType) (d : String)
    (c eo : Option String) (fs : List String) (mx : Option Int) (ts : Int)
    (cid : String) (r : ResultDict) (files : List String) :
    verify_size_loop env ⟨ty, d, c, eo, fs, mx, some 0, ts⟩ cid r files =
      verify_size_loop env ⟨ty, d, c, eo, fs, mx, none, ts⟩ cid r files := by
  induction files with
  | nil => rfl
  | cons f rest ih =>
    simp only [verify_size_loop]
    cases hp : size_mb_probe env cid f with
    | error e => rfl
    | ok o =>
      cases o with
      | none => rfl
      | some q =>
        have h1 : truthyOptInt (some (0 : Int)) = false := rfl
        have h2 : truthyOptInt (none : Option Int) = false := rfl
        simp only [h1, h2, false_and, Bool.false_eq_true, if_false]
        split
        · rfl
        · exact ih

/-- The `_verify_size` loop treats `max_size_mb = 0` exactly as
`max_size_mb = None`. -/
theorem verify_size_loop_zero_max (env : Env) (ty : VerificationType) (d : String)
    (c eo : Option String) (fs : List String) (mn : Option Int) (ts : Int)
    (cid : String) (r : ResultDict) (files : List String) :
    verify_size_loop env ⟨ty, d, c, eo, fs, some 0, mn, ts⟩ cid r files =
      verify_size_loop env ⟨ty, d, c, eo, fs, none, mn, ts⟩ cid r files := by
  induction files with
  | nil => rfl
  | cons f rest ih =>
    simp only [verify_size_loop]
    cases hp : size_mb_probe env cid f with
    | error e => rfl
    | ok o =>
      cases o with
      | none => rfl
      | some q =>
        have h1 : truthyOptInt (some (0 : Int)) = false := rfl
        have h2 : truthyOptInt (none : Option Int) = false := rfl
        simp only [h1, h2, false_and, Bool.false_eq_true, if_false]
        split
        · rfl
        · exact ih

/-- The `_verify_checksum` loop never consults the size bounds, so changing
them does not change its result. -/
theorem verify_checksum_loop_bounds_irrelevant (env : Env) (ty : VerificationType)
    (d : String) (c eo : Option String) (fs : List String) (mx mn mx2 mn2 : Option Int)
    (ts : Int) (cid : String) (r : ResultDict) (files : List String) :
    verify_checksum_loop env ⟨ty, d, c, eo, fs, mx, mn, ts⟩ cid r files =
      verify_checksum_loop env ⟨ty, d, c, eo, fs, mx2, mn2, ts⟩ cid r files := by
  induction files with
  | nil => rfl
  | cons f rest ih =>
    simp only [verify_checksum_loop]
    cases hsha : (if cid = "local" then env.sha256Local f else env.sha256Docker cid f) with
    | error e => rfl
    | ok p =>
      obtain ⟨rc, out⟩ := p
      dsimp only
      by_cases hrc : rc ≠ 0
      · rw [if_pos hrc, if_pos hrc]
      · rw [if_neg hrc, if_neg hrc]
        cases hsp : pySplitWs out with
        | nil => rfl
        | cons actual rest2 =>
          dsimp only
          by_cases hm : truthyOptStr eo = true ∧ actual ≠ eo.getD ""
          · rw [if_pos hm, if_pos hm]
          · rw [if_neg hm, if_neg hm]
            exact ih

/-- Dispatch-level form of the zero-min equivalence. -/
theorem run_check_zero_min (env : Env) (config : RunnerConfig) (ty : VerificationType)
    (d : String) (c eo : Option String) (fs : List String) (mx : Option Int) (ts : Int)
    (cid : String) (r : ResultDict) :
    run_check env config ⟨ty, d, c, eo, fs, mx, some 0, ts⟩ cid r =
      run_check env config ⟨ty, d, c, eo, fs, mx, none, ts⟩ cid r := by
  cases ty with
  | size_check => exact verify_size_loop_zero_min env _ d c eo fs mx ts cid r fs
  | checksum => exact verify_checksum_loop_bounds_irrelevant env _ d c eo fs mx (some 0) mx none ts cid r fs
  | boot_test => rfl
  | file_check => rfl
  | command_output => rfl

/-- Dispatch-level form of the zero-max equivalence. -/
theorem run_check_zero_max (env : Env) (config : RunnerConfig) (ty : VerificationType)
    (d : String) (c eo : Option String) (fs : List String) (mn : Option Int) (ts : Int)
    (cid : String) (r : ResultDict) :
    run_check env config ⟨ty, d, c, eo, fs, some 0, mn, ts⟩ cid r =
      run_check env config ⟨ty, d, c, eo, fs, none, mn, ts⟩ cid r := by
  cases ty with
  | size_check => exact verify_size_loop_zero_max env _ d c eo fs mn ts cid r fs
  | checksum => exact verify_checksum_loop_bounds_irrelevant env _ d c eo fs (some 0) mn none mn ts cid r fs
  | boot_test => rfl
  | file_check => rfl
  | command_output => rfl

/-- C10: a zero-valued size bound is treated as if it were absent — a
SIZE_CHECK step with `min_size_mb = 0` (resp. `max_size_mb = 0`) verifies
exactly like the same step with that bound `None`, for every environment,
so no file of any size can fail the check on account of a zero bound.
(The equivalence is stated on `run_verification`, and holds for every step
type since only SIZE_CHECK consults the bounds.) -/
theorem size_check_zero_bound_treated_as_absent
    (env : Env) (config : RunnerConfig) (step : VerificationStep)
    (cid : String) (el : ℚ) :
    run_verification env config { step with min_size_mb := some 0 } cid el =
      run_verification env config { step with min_size_mb := none } cid el ∧
    run_verification env config { step with max_size_mb := some 0 } cid el =
      run_verification env config { step with max_size_mb := none } cid el := by
  obtain ⟨ty, d, c, eo, fs, mx, mn, ts⟩ := step
  constructor
  · simp only [run_verification, init_result]
    rw [run_check_zero_min env config ty d c eo fs mx ts cid
      { type := ty.value, description := d, passed := false, details := "",
        error := none, duration_seconds := 0 }]
  · simp only [run_verification, init_result]
    rw [run_check_zero_max env config ty d c eo fs mn ts cid
      { type := ty.value, description := d, passed := false, details := "",
        error := none, duration_seconds := 0 }]

/-! ## C2 -/

/-- A word is a prefix of itself followed by anything. -/
theorem startsWithChars_append_self (x b : List Char) :
    startsWithChars x (x ++ b) = true := by
  induction x with
  | nil => rfl
  | cons c cs ih => simp [startsWithChars, ih]

/-- A prefix occurrence is an occurrence. -/
theorem hasSubChars_of_startsWithChars (n l : List Char)
    (h : startsWithChars n l = true) : hasSubChars n l = true := by
  cases l with
  | nil => simpa [hasSubChars] using h
  | cons c cs => simp [hasSubChars, h]

/-- An occurrence survives prepending. -/
theorem hasSubChars_append_left (n a rest : List Char)
    (h : hasSubChars n rest = true) : hasSubChars n (a ++ rest) = true := by
  induction a with
  | nil => simpa using h
  | cons c cs ih => simp [hasSubChars, ih]

/-- A string occurs in any string of the shape `a ++ x ++ b`. -/
theorem containsStr_append_mid (a x b : String) :
    containsStr (a ++ x ++ b) x = true := by
  show hasSubChars x.toList (a ++ x ++ b).toList = true
  have hsplit : (a ++ x ++ b).toList = a.toList ++ (x.toList ++ b.toList) := by
    simp
  rw [hsplit]
  exact hasSubChars_append_left _ _ _
    (hasSubChars_of_startsWithChars _ _ (startsWithChars_append_self _ _))

/-- The `str(TimeoutExpired)` message contains the timeout value. -/
theorem timeoutExpiredStr_contains_timeout (cmd : String) (timeout : Int) :
    containsStr (timeoutExpiredStr cmd timeout) (toString timeout) = true := by
  show containsStr
    ((("Command '" ++ cmd) ++ "' timed out after ") ++ toString timeout ++ " seconds")
    (toString timeout) = true
  exact containsStr_append_mid _ _ _

/-- A COMMAND_OUTPUT step whose command would exceed the computed timeout. -/
def step_cmd_timeout : VerificationStep :=
  { type := .command_output
    description := "run the build"
    command := some "sleep 500"
    timeout_seconds := 300 }

/-- An environment in which every command execution expires its timeout. -/
def env_timeout : Env :=
  { env0 with
    runShell := fun _ _ => .timedOut
    dockerRun := fun _ _ _ => .timedOut }

/-- C2 counterexample: with the default configuration, a COMMAND_OUTPUT step
whose command times out yields `passed = false`, but the outcome's `details`
string is empty — it does not contain the timeout value `300`; the
`TimeoutExpired` message (which does contain it) lands in the outcome's
`error` field instead.  So the claim's "details string contains the timeout
value" is false at this input. -/
theorem command_timeout_details_empty_counterexample :
    (run_verification env_timeout cfg0 step_cmd_timeout "local" 0).passed = false ∧
    (run_verification env_timeout cfg0 step_cmd_timeout "local" 0).details = "" ∧
    containsStr (run_verification env_timeout cfg0 step_cmd_timeout "local" 0).details
      (toString (300 : Int)) = false ∧
    (run_verification env_timeout cfg0 step_cmd_timeout "local" 0).error =
      some "Command 'sleep 500' timed out after 300 seconds" := by
  have ht : pyTruncRat ((step_cmd_timeout.timeout_seconds : ℚ) * cfg0.timeout_multiplier)
      = 300 := by
    show pyTruncRat (((300 : Int) : ℚ) * (1 : ℚ)) = 300
    norm_num [pyTruncRat]
  have hcheck : run_check env_timeout cfg0 step_cmd_timeout "local"
      (init_result step_cmd_timeout) = .error (timeoutExpiredStr "sleep 500" 300) := by
    show verify_command env_timeout cfg0 step_cmd_timeout "local"
      (init_result step_cmd_timeout) = .error (timeoutExpiredStr "sleep 500" 300)
    rw [verify_command, ht]
    rfl
  have hrv : run_verification env_timeout cfg0 step_cmd_timeout "local" 0 =
      { init_result step_cmd_timeout with
        error := some (timeoutExpiredStr "sleep 500" 300)
        passed := false
        duration_seconds := 0 } := by
    rw [run_verification, hcheck]
  rw [hrv]
  refine ⟨rfl, rfl, by decide, ?_⟩
  show some (timeoutExpiredStr "sleep 500" 300) =
    some "Command 'sleep 500' timed out after 300 seconds"
  rfl

/-- C2 (amended): for every COMMAND_OUTPUT step whose command exceeds the
computed timeout (`timeoutSeconds` scaled by the configured multiplier), the
`TimeoutExpired` exception is caught at the `run_verification` boundary (it
never propagates), and the outcome has `passed = false` with the timeout
value contained in its `error` message — while `details` stays empty. -/
theorem command_timeout_caught_with_timeout_in_error
    (env : Env) (config : RunnerConfig) (step : VerificationStep)
    (cid : String) (el : ℚ)
    (hty : step.type = .command_output)
    (htimeout :
      (if cid = "local" then
        env.runShell step.command
          (pyTruncRat ((step.timeout_seconds : ℚ) * config.timeout_multiplier))
      else
        env.dockerRun cid step.command
          (pyTruncRat ((step.timeout_seconds : ℚ) * config.timeout_multiplier))) =
        .timedOut) :
    (run_verification env config step cid el).passed = false ∧
    (run_verification env config step cid el).details = "" ∧
    ∃ msg, (run_verification env config step cid el).error = some msg ∧
      containsStr msg
        (toString (pyTruncRat ((step.timeout_seconds : ℚ) * config.timeout_multiplier)))
        = true := by
  have hcheck : run_check env config step cid (init_result step) =
      .error (timeoutExpiredStr
        (if cid = "local" then pyShowOptCmd step.command
         else dockerCmdRepr cid step.command)
        (pyTruncRat ((step.timeout_seconds : ℚ) * config.timeout_multiplier))) := by
    rw [run_check, hty]
    rw [verify_command]
    by_cases hcid : cid = "local"
    · rw [if_pos hcid] at htimeout ⊢
      rw [htimeout]
    · rw [if_neg hcid] at htimeout ⊢
      rw [htimeout]
  have hrv : run_verification env config step cid el =
      { init_result step with
        error := some (timeoutExpiredStr
          (if cid = "local" then pyShowOptCmd step.command
           else dockerCmdRepr cid step.command)
          (pyTruncRat ((step.timeout_seconds : ℚ) * config.timeout_multiplier)))
        passed := false
        duration_seconds := el } := by
    rw [run_verification, hcheck]
  rw [hrv]
  refine ⟨rfl, rfl, _, rfl, ?_⟩
  exact timeoutExpiredStr_contains_timeout _ _

/-- Witness for C2's amended theorem at a concrete timed-out step. -/
theorem command_timeout_caught_with_timeout_in_error_witness :
    (run_verification env_timeout cfg0 step_cmd_timeout "local" 0).passed = false ∧
    (run_verification env_timeout cfg0 step_cmd_timeout "local" 0).details = "" ∧
    ∃ msg, (run_verification env_timeout cfg0 step_cmd_timeout "local" 0).error = some msg ∧
      containsStr msg
        (toString (pyTruncRat ((step_cmd_timeout.timeout_seconds : ℚ) *
          cfg0.timeout_multiplier))) = true :=
  command_timeout_caught_with_timeout_in_error env_timeout cfg0 step_cmd_timeout
    "local" 0 rfl rfl

/-! ## C3 -/

/-- If the `_verify_size` loop returns a passing outcome, every file it was
given has an obtainable size within both (truthy) bounds, inclusively. -/
theorem verify_size_loop_passed_all_in_bounds
    (env : Env) (step : VerificationStep) (cid : String) (r : ResultDict)
    (hr : r.passed = false)
    (hmin : truthyOptInt step.min_size_mb = true)
    (hmax : truthyOptInt step.max_size_mb = true) :
    ∀ (files : List String) (out : ResultDict),
      verify_size_loop env step cid r files = .ok out → out.passed = true →
      ∀ f ∈ files, ∃ q, size_mb_probe env cid f = .ok (some q) ∧
        ((step.min_size_mb.getD 0 : Int) : ℚ) ≤ q ∧
        q ≤ ((step.max_size_mb.getD 0 : Int) : ℚ) := by
  intro files
  induction files with
  | nil =>
    intro out _ _ f hf
    cases hf
  | cons f0 rest ih =>
    intro out h hp f hf
    simp only [verify_size_loop] at h
    cases hpr : size_mb_probe env cid f0 with
    | error e =>
      rw [hpr] at h
      cases h
    | ok o =>
      rw [hpr] at h
      cases o with
      | none =>
        dsimp only at h
        simp only [Except.ok.injEq] at h
        rw [← h] at hp
        simp only at hp
        rw [hr] at hp
        cases hp
      | some q =>
        dsimp only at h
        by_cases hc1 : truthyOptInt step.min_size_mb = true ∧
            q < ((step.min_size_mb.getD 0 : Int) : ℚ)
        · rw [if_pos hc1] at h
          simp only [Except.ok.injEq] at h
          rw [← h] at hp
          simp only at hp
          rw [hr] at hp
          cases hp
        · rw [if_neg hc1] at h
          by_cases hc2 : truthyOptInt step.max_size_mb = true ∧
              ((step.max_size_mb.getD 0 : Int) : ℚ) < q
          · rw [if_pos hc2] at h
            simp only [Except.ok.injEq] at h
            rw [← h] at hp
            simp only at hp
            rw [hr] at hp
            cases hp
          · rw [if_neg hc2] at h
            rcases List.mem_cons.mp hf with hf0 | hfr
            · subst hf0
              refine ⟨q, hpr, ?_, ?_⟩
              · exact le_of_not_lt (fun hlt => hc1 ⟨hmin, hlt⟩)
              · exact le_of_not_lt (fun hlt => hc2 ⟨hmax, hlt⟩)
            · exact ih out h hp f hfr

/-- C3: for a SIZE_CHECK step with both bounds set (truthy), (a) the
outcome passes only if every expected file's size probe yields a size in
`[minSizeMB, maxSizeMB]` inclusive, and (b) the check short-circuits: when
the first file's size violates a bound, the outcome is a failure and is
identical under any other environment agreeing on that first file alone —
the remaining files' sizes are never inspected. -/
theorem size_check_inclusive_bounds_and_short_circuit
    (env env2 : Env) (config : RunnerConfig) (step : VerificationStep)
    (cid : String) (el : ℚ)
    (hty : step.type = .size_check)
    (hmin : truthyOptInt step.min_size_mb = true)
    (hmax : truthyOptInt step.max_size_mb = true) :
    ((run_verification env config step cid el).passed = true →
      ∀ f ∈ step.expected_files, ∃ q, size_mb_probe env cid f = .ok (some q) ∧
        ((step.min_size_mb.getD 0 : Int) : ℚ) ≤ q ∧
        q ≤ ((step.max_size_mb.getD 0 : Int) : ℚ)) ∧
    (∀ (f : String) (rest : List String) (q : ℚ),
      step.expected_files = f :: rest →
      size_mb_probe env cid f = .ok (some q) →
      (q < ((step.min_size_mb.getD 0 : Int) : ℚ) ∨
        ((step.max_size_mb.getD 0 : Int) : ℚ) < q) →
      size_mb_probe env2 cid f = size_mb_probe env cid f →
      run_verification env2 config step cid el = run_verification env config step cid el ∧
      (run_verification env config step cid el).passed = false) := by
  have hrc : ∀ e : Env, run_check e config step cid (init_result step) =
      verify_size_loop e step cid (init_result step) step.expected_files := by
    intro e
    rw [run_check, hty]
    rfl
  constructor
  · intro hp f hf
    rw [run_verification] at hp
    simp only [hrc env] at hp
    cases hloop : verify_size_loop env step cid (init_result step) step.expected_files with
    | error e =>
      rw [hloop] at hp
      simp only at hp
      cases hp
    | ok out =>
      rw [hloop] at hp
      simp only at hp
      exact verify_size_loop_passed_all_in_bounds env step cid (init_result step)
        rfl hmin hmax step.expected_files out hloop hp f hf
  · intro f rest q hfiles hprobe hviol hagree
    have hprobe2 : size_mb_probe env2 cid f = .ok (some q) := by
      rw [hagree]; exact hprobe
    by_cases hq : q < ((step.min_size_mb.getD 0 : Int) : ℚ)
    · have heval : ∀ e3 : Env, size_mb_probe e3 cid f = .ok (some q) →
          verify_size_loop e3 step cid (init_result step) (f :: rest) =
            .ok { init_result step with
                  details := (f ++ ": " ++ fmt1 q ++ "MB < min " ++
                    toString (step.min_size_mb.getD 0) ++ "MB") } := by
        intro e3 hpe
        simp only [verify_size_loop]
        rw [hpe]
        dsimp only
        rw [if_pos ⟨hmin, hq⟩]
      constructor
      · rw [run_verification, run_verification, hrc env2, hrc env, hfiles,
          heval env2 hprobe2, heval env hprobe]
      · rw [run_verification]
        simp only [hrc env, hfiles, heval env hprobe]
        rfl
    · have hmaxq : ((step.max_size_mb.getD 0 : Int) : ℚ) < q := by
        cases hviol with
        | inl h => exact absurd h hq
        | inr h => exact h
      have heval : ∀ e3 : Env, size_mb_probe e3 cid f = .ok (some q) →
          verify_size_loop e3 step cid (init_result step) (f :: rest) =
            .ok { init_result step with
                  details := (f ++ ": " ++ fmt1 q ++ "MB > max " ++
                    toString (step.max_size_mb.getD 0) ++ "MB") } := by
        intro e3 hpe
        simp only [verify_size_loop]
        rw [hpe]
        dsimp only
        rw [if_neg (fun hc => hq hc.2), if_pos ⟨hmax, hmaxq⟩]
      constructor
      · rw [run_verification, run_verification, hrc env2, hrc env, hfiles,
          heval env2 hprobe2, heval env hprobe]
      · rw [run_verification]
        simp only [hrc env, hfiles, heval env hprobe]
        rfl

/-- A SIZE_CHECK step with two expected files and both bounds set. -/
def step_size : VerificationStep :=
  { type := .size_check
    description := "image size"
    expected_files := ["f1", "f2"]
    min_size_mb := some 5
    max_size_mb := some 500 }

/-- An environment in which `f1` is empty and `f2` is 10 MB. -/
def env_size : Env :=
  { env0 with
    statSize := fun p => if p = "f1" then .ok 0 else .ok (10 * 1024 * 1024) }

/-- A second environment agreeing with `env_size` on `f1` but failing on
every other stat — the short-circuit makes it indistinguishable. -/
def env_size2 : Env :=
  { env0 with
    statSize := fun p => if p = "f1" then .ok 0 else .error "stat: boom" }

/-- Witness for C3 at a concrete violating first file. -/
theorem size_check_inclusive_bounds_and_short_circuit_witness :
    run_verification env_size2 cfg0 step_size "local" 0 =
      run_verification env_size cfg0 step_size "local" 0 ∧
    (run_verification env_size cfg0 step_size "local" 0).passed = false :=
  (size_check_inclusive_bounds_and_short_circuit env_size env_size2 cfg0 step_size
      "local" 0 rfl (by decide) (by decide)).2
    "f1" ["f2"] (((0 : Nat) : ℚ) / (1024 * 1024)) rfl rfl
    (Or.inl (by norm_num [step_size])) rfl

/-! ## C4 -/

/-- C4: (a) whenever the dispatched check raises (returns `.error e`),
`run_verification` catches it and returns the pristine result dict with
`passed = false` and `error` set to the exception message — by construction
no exception escapes `run_verification`; and (b) a failing step never
aborts the evaluation of sibling steps: `evaluate_task` always produces one
outcome per declared verification step. -/
theorem run_verification_catches_check_exceptions :
    (∀ (env : Env) (config : RunnerConfig) (step : VerificationStep)
        (cid : String) (el : ℚ) (e : String),
      run_check env config step cid (init_result step) = .error e →
      run_verification env config step cid el =
        { init_result step with
          error := some e
          passed := false
          duration_seconds := el }) ∧
    (∀ (env : Env) (config : RunnerConfig) (task : Task)
        (agent_id model_name start_time end_time : String) (dur : ℚ) (se : Nat → ℚ),
      (evaluate_task env config task agent_id model_name start_time end_time dur se).verification_results.length =
        task.verification_steps.length) := by
  constructor
  · intro env config step cid el e h
    rw [run_verification, h]
  · intro env config task agent_id model_name start_time end_time dur se
    simp [evaluate_task]

/-- Witness for C4: a SIZE_CHECK whose local `stat` raises is converted to a
failed outcome carrying the exception message. -/
theorem run_verification_catches_check_exceptions_witness :
    run_verification env0 cfg0 step_size "local" 0 =
      { init_result step_size with
        error := some "stat: missing"
        passed := false
        duration_seconds := 0 } :=
  run_verification_catches_check_exceptions.1 env0 cfg0 step_size "local" 0
    "stat: missing" rfl

/-! ## C8 -/

/-- Whether a serialized message is an assistant message containing at
least one text block (the only kind the extraction scan can stop at). -/
def msg_has_text : SMsg → Bool
  | .assistant content => (first_text_block content).isSome
  | .user _ => false
  | .unknown _ => false

/-- The extraction loop skips every message without an assistant text block. -/
theorem extract_final_output_loop_skips (l rest : List SMsg)
    (h : ∀ m ∈ l, msg_has_text m = false) :
    extract_final_output_loop (l ++ rest) = extract_final_output_loop rest := by
  induction l with
  | nil => rfl
  | cons m l2 ih =>
    have hm : msg_has_text m = false := h m (List.mem_cons_self m l2)
    have hl2 : ∀ m2 ∈ l2, msg_has_text m2 = false :=
      fun m2 hm2 => h m2 (List.mem_cons_of_mem m hm2)
    cases m with
    | assistant content =>
      have : first_text_block content = none := by
        simpa [msg_has_text, Option.isSome_iff_exists] using hm
      simp only [List.cons_append, extract_final_output_loop, this]
      exact ih hl2
    | user s =>
      simp only [List.cons_append, extract_final_output_loop]
      exact ih hl2
    | unknown s =>
      simp only [List.cons_append, extract_final_output_loop]
      exact ih hl2

/-- C8 counterexample: for the single assistant message with two text
blocks `"A"` then `"B"`, the most recent assistant text block is `"B"`,
but `_extract_final_output` returns `"A"` — the *first* text block of the
winning message — so the claim's "most-recent assistant text block is
returned" is false at this input. -/
theorem extract_final_output_not_most_recent_block_counterexample :
    extract_final_output [SMsg.assistant [SBlock.text "A", SBlock.text "B"]] = "A" ∧
    most_recent_assistant_text_block [SMsg.assistant [SBlock.text "A", SBlock.text "B"]]
      = some "B" ∧
    ("A" : String) ≠ "B" := by
  refine ⟨rfl, rfl, by decide⟩

/-- C8 (amended): scanning the serialized messages from most recent to
oldest, the winner is the newest assistant message that contains a text
block, and the *first* text block of that message is returned, truncated
to 2000 characters; when no assistant message has a text block, the empty
string is returned. -/
theorem extract_final_output_newest_assistant_first_text :
    (∀ (pre mid : List SMsg) (content : List SBlock) (t : String),
      first_text_block content = some t →
      (∀ m ∈ mid, msg_has_text m = false) →
      extract_final_output (pre ++ SMsg.assistant content :: mid) = pyTakeStr 2000 t) ∧
    (∀ msgs : List SMsg,
      (∀ m ∈ msgs, msg_has_text m = false) →
      extract_final_output msgs = "") := by
  constructor
  · intro pre mid content t ht hmid
    rw [extract_final_output]
    have hrev : (pre ++ SMsg.assistant content :: mid).reverse =
        mid.reverse ++ SMsg.assistant content :: pre.reverse := by
      simp
    rw [hrev]
    rw [extract_final_output_loop_skips mid.reverse _
      (fun m hm => hmid m (List.mem_reverse.mp hm))]
    simp only [extract_final_output_loop, ht]
  · intro msgs h
    rw [extract_final_output]
    have := extract_final_output_loop_skips msgs.reverse []
      (fun m hm => h m (List.mem_reverse.mp hm))
    simpa using this

/-- Witness for C8's amended theorem: the newest assistant message with a
text block wins even across younger assistant messages without one, and
its first text block is returned. -/
theorem extract_final_output_newest_assistant_first_text_witness :
    extract_final_output
      [SMsg.user "u",
       SMsg.assistant [SBlock.tool_use "Bash" [("command", "ls")], SBlock.text "hello"],
       SMsg.assistant [SBlock.tool_use "Write" []],
       SMsg.user "tool result"] = pyTakeStr 2000 "hello" :=
  extract_final_output_newest_assistant_first_text.1
    [SMsg.user "u"]
    [SMsg.assistant [SBlock.tool_use "Write" []], SMsg.user "tool result"]
    [SBlock.tool_use "Bash" [("command", "ls")], SBlock.text "hello"]
    "hello" rfl (by decide)

end Benchmark
